import Mathlib

/-!
Shallow embedding of the crashpad excerpt:
src/minidump/minidump_crashpad_info_writer.cc (MinidumpCrashpadInfoWriter)
and src/util/mach/mach_message.h (deadline constants and the contracts of
MachMessageDeadlineFromTimeout and MachMessageWithDeadline).

The leaf writer is embedded as a record of the observable member state
(lifecycle state, the fixed-size payload struct crashpad_info_, and the
optional child pointer module_list_); each member function becomes a Lean
function returning Option, where none models a failed DCHECK on entry
(assertion-level fault on an out-of-order call). Base-class machinery
(MinidumpWritable, MinidumpStreamWriter) and the struct declarations from
minidump_extensions.h are not part of the excerpt and are modelled from the
spec where a definition notes so.
-/

namespace Crashpad

/-- A MINIDUMP_LOCATION_DESCRIPTOR: a byte size and a byte offset (RVA) into
the minidump file. -/
structure MinidumpLocationDescriptor where
  DataSize : Nat
  Rva : Nat
deriving DecidableEq

/-- The value-initialized (all-zero) location descriptor, which by the
convention of the format means an absent child. -/
def MinidumpLocationDescriptor.zero : MinidumpLocationDescriptor :=
  { DataSize := 0, Rva := 0 }

/-- Modelled from the spec: the MinidumpCrashpadInfo struct is declared in a
header outside the excerpt. It is the fixed-size payload of
MinidumpCrashpadInfoWriter: a version field and a location descriptor that
points at the module list child. -/
structure MinidumpCrashpadInfo where
  version : Nat
  module_list : MinidumpLocationDescriptor
deriving DecidableEq

/-- Modelled from the spec: MinidumpCrashpadInfo.kVersion is declared outside
the excerpt; the claims only relate the payload field to this constant, so the
concrete value does not matter. -/
def MinidumpCrashpadInfo.kVersion : Nat := 1

/-- Little-endian byte encoding of a 32-bit struct field. -/
def u32le (n : Nat) : List Nat :=
  [n % 256, n / 256 % 256, n / 65536 % 256, n / 16777216 % 256]

/-- The serialized bytes of the payload struct: the version field followed by
the module_list location descriptor (DataSize then Rva), each a 32-bit
little-endian field. -/
def MinidumpCrashpadInfo.toBytes (ci : MinidumpCrashpadInfo) : List Nat :=
  u32le ci.version ++ u32le ci.module_list.DataSize ++ u32le ci.module_list.Rva

/-- sizeof(MinidumpCrashpadInfo): three 32-bit fields, 12 bytes. -/
def MinidumpCrashpadInfo.sizeofStruct : Nat := 12

/-- Length of the serialized payload equals sizeof of the struct. -/
theorem MinidumpCrashpadInfo.toBytes_length (ci : MinidumpCrashpadInfo) :
    ci.toBytes.length = MinidumpCrashpadInfo.sizeofStruct := by
  simp [MinidumpCrashpadInfo.toBytes, u32le, MinidumpCrashpadInfo.sizeofStruct]

/-- The lifecycle states of a MinidumpWritable, in order: Mutable, then
Frozen, then Writable, then Written. -/
inductive WritableState where
  | kStateMutable
  | kStateFrozen
  | kStateWritable
  | kStateWritten
deriving DecidableEq

/-- Numeric rank of a lifecycle state, used for the ordered comparison in
DCHECK_GE(state(), kStateFrozen). -/
def WritableState.rank : WritableState → Nat
  | .kStateMutable => 0
  | .kStateFrozen => 1
  | .kStateWritable => 2
  | .kStateWritten => 3

/-- Modelled from the spec: MinidumpModuleCrashpadInfoListWriter lives outside
the excerpt. Only two aspects of the child matter to the claims about this
node: whether the recursive freeze of the child succeeds, and the location
descriptor that RegisterLocationDescriptor records into the payload field of
the parent. -/
structure MinidumpModuleCrashpadInfoListWriter where
  freezeOk : Bool
  location : MinidumpLocationDescriptor
deriving DecidableEq

/-- The observable member state of a MinidumpCrashpadInfoWriter: the lifecycle
state inherited from MinidumpWritable, the payload struct crashpad_info_, and
the child pointer module_list_ (none models nullptr). -/
structure MinidumpCrashpadInfoWriter where
  state : WritableState
  crashpad_info : MinidumpCrashpadInfo
  module_list : Option MinidumpModuleCrashpadInfoListWriter
deriving DecidableEq

namespace MinidumpCrashpadInfoWriter

/-- The constructor: the lifecycle state starts Mutable, crashpad_info_ is
value-initialized to all zeroes and then its version field is set to
kVersion, and module_list_ is nullptr. -/
def new : MinidumpCrashpadInfoWriter :=
  { state := WritableState.kStateMutable
  , crashpad_info :=
      { version := MinidumpCrashpadInfo.kVersion
      , module_list := MinidumpLocationDescriptor.zero }
  , module_list := none }

/-- SetModuleList: DCHECK_EQ(state, kStateMutable), then store the possibly
null child pointer. A failed DCHECK is modelled as none. -/
def SetModuleList (w : MinidumpCrashpadInfoWriter)
    (ml : Option MinidumpModuleCrashpadInfoListWriter) :
    Option MinidumpCrashpadInfoWriter :=
  if w.state = WritableState.kStateMutable then
    some { w with module_list := ml }
  else
    none

/-- The observable steps of a Freeze call, in the order they happen. -/
inductive FreezeEvent where
  | childListFrozen
  | descriptorRegistered
  | selfMarkedFrozen
deriving DecidableEq

/-- Freeze: DCHECK_EQ(state, kStateMutable); run the base-class freeze and on
its failure return false at once; otherwise, when a module list is attached,
register the location descriptor of the child into the module_list field of
crashpad_info_, and return true. Modelled from the spec where the base class
sits outside the excerpt: the base MinidumpStreamWriter freeze recursively
freezes the attached children first and fails exactly when the freeze of a
child fails, the payload fields are finalized next, and the node is marked
frozen last. The returned trace lists the observable steps in order. -/
def Freeze (w : MinidumpCrashpadInfoWriter) :
    Option (Bool × MinidumpCrashpadInfoWriter × List FreezeEvent) :=
  if w.state = WritableState.kStateMutable then
    match w.module_list with
    | none =>
        some (true,
          { w with state := WritableState.kStateFrozen },
          [FreezeEvent.selfMarkedFrozen])
    | some ml =>
        if ml.freezeOk then
          some (true,
            { w with
                state := WritableState.kStateFrozen
                crashpad_info :=
                  { w.crashpad_info with module_list := ml.location } },
            [FreezeEvent.childListFrozen,
             FreezeEvent.descriptorRegistered,
             FreezeEvent.selfMarkedFrozen])
        else
          some (false, w, [FreezeEvent.childListFrozen])
  else
    none

/-- SizeOfObject: DCHECK_GE(state, kStateFrozen); returns
sizeof(crashpad_info_), independent of any attached child. -/
def SizeOfObject (w : MinidumpCrashpadInfoWriter) : Option Nat :=
  if WritableState.kStateFrozen.rank ≤ w.state.rank then
    some MinidumpCrashpadInfo.sizeofStruct
  else
    none

/-- Children: DCHECK_GE(state, kStateFrozen); a vector holding the module
list child when one is attached, empty otherwise. -/
def Children (w : MinidumpCrashpadInfoWriter) :
    Option (List MinidumpModuleCrashpadInfoListWriter) :=
  if WritableState.kStateFrozen.rank ≤ w.state.rank then
    some (match w.module_list with
          | none => []
          | some ml => [ml])
  else
    none

end MinidumpCrashpadInfoWriter

/-- The output sink: the bytes appended so far and a flag saying whether its
Write call reports success. -/
structure FileWriterInterface where
  data : List Nat
  ok : Bool
deriving DecidableEq

/-- Write on the sink: reports the success flag, and appends exactly the
given bytes when it succeeds (never a partial append). -/
def FileWriterInterface.WriteCall (fw : FileWriterInterface)
    (bytes : List Nat) : Bool × FileWriterInterface :=
  if fw.ok then (true, { fw with data := fw.data ++ bytes }) else (false, fw)

namespace MinidumpCrashpadInfoWriter

/-- WriteObject: DCHECK_EQ(state, kStateWritable); a single call to Write on
the sink with the bytes of crashpad_info_, whose result is returned as is. -/
def WriteObject (w : MinidumpCrashpadInfoWriter) (fw : FileWriterInterface) :
    Option (Bool × FileWriterInterface) :=
  if w.state = WritableState.kStateWritable then
    some (fw.WriteCall w.crashpad_info.toBytes)
  else
    none

/-- Modelled from the spec: the transition Frozen to Writable is performed by
the root writer machinery outside the excerpt once the whole-tree freeze has
completed; it changes only the lifecycle state of the node. -/
def promoteToWritable (w : MinidumpCrashpadInfoWriter) :
    Option MinidumpCrashpadInfoWriter :=
  if w.state = WritableState.kStateFrozen then
    some { w with state := WritableState.kStateWritable }
  else
    none

/-- Writers reachable from construction through the public operations. -/
inductive Reach : MinidumpCrashpadInfoWriter → Prop
  | construct : Reach new
  | set {w ml w'} : Reach w → SetModuleList w ml = some w' → Reach w'
  | freeze {w b w' tr} : Reach w → Freeze w = some (b, w', tr) → Reach w'
  | promote {w w'} : Reach w → promoteToWritable w = some w' → Reach w'

/-- While a reachable writer is still Mutable, its payload struct is exactly
the one the constructor built: only Freeze touches crashpad_info_, and Freeze
leaves the Mutable state. -/
theorem reach_mutable_crashpad_info {w : MinidumpCrashpadInfoWriter}
    (h : Reach w) (hm : w.state = WritableState.kStateMutable) :
    w.crashpad_info = new.crashpad_info := by
  induction h with
  | construct => rfl
  | set hr heq ih =>
      rename_i w₀ ml w₁
      unfold SetModuleList at heq
      by_cases h0 : w₀.state = WritableState.kStateMutable
      · simp [h0] at heq
        subst heq
        exact ih h0
      · simp [h0] at heq
  | freeze hr heq ih =>
      rename_i w₀ b w₁ tr
      unfold Freeze at heq
      by_cases h0 : w₀.state = WritableState.kStateMutable
      · simp only [h0, if_true] at heq
        cases hml : w₀.module_list with
        | none =>
            simp [hml] at heq
            rw [← heq.2.1] at hm
            simp at hm
        | some ml =>
            simp only [hml] at heq
            by_cases hok : ml.freezeOk
            · simp [hok] at heq
              rw [← heq.2.1] at hm
              simp at hm
            · simp [hok] at heq
              rw [← heq.2.1]
              exact ih h0
      · simp [h0] at heq
  | promote hr heq ih =>
      rename_i w₀ w₁
      unfold promoteToWritable at heq
      by_cases h0 : w₀.state = WritableState.kStateFrozen
      · simp [h0] at heq
        rw [← heq] at hm
        simp at hm
      · simp [h0] at heq

/-- Every reachable writer carries version kVersion in its payload: the
constructor sets it and no operation writes to the version field. -/
theorem reach_version {w : MinidumpCrashpadInfoWriter} (h : Reach w) :
    w.crashpad_info.version = MinidumpCrashpadInfo.kVersion := by
  induction h with
  | construct => rfl
  | set hr heq ih =>
      rename_i w₀ ml w₁
      unfold SetModuleList at heq
      by_cases h0 : w₀.state = WritableState.kStateMutable
      · simp [h0] at heq
        subst heq
        exact ih
      · simp [h0] at heq
  | freeze hr heq ih =>
      rename_i w₀ b w₁ tr
      unfold Freeze at heq
      by_cases h0 : w₀.state = WritableState.kStateMutable
      · simp only [h0, if_true] at heq
        cases hml : w₀.module_list with
        | none =>
            simp [hml] at heq
            rw [← heq.2.1]
            exact ih
        | some ml =>
            simp only [hml] at heq
            by_cases hok : ml.freezeOk
            · simp [hok] at heq
              rw [← heq.2.1]
              exact ih
            · simp [hok] at heq
              rw [← heq.2.1]
              exact ih
      · simp [h0] at heq
  | promote hr heq ih =>
      rename_i w₀ w₁
      unfold promoteToWritable at heq
      by_cases h0 : w₀.state = WritableState.kStateFrozen
      · simp [h0] at heq
        rw [← heq]
        exact ih
      · simp [h0] at heq

end MinidumpCrashpadInfoWriter

/-- The deadline type of the mach_message interface is uint64_t; deadlines
are modelled as Nat values below 2 to the 64. -/
def MachMessageDeadline : Type := Nat

/-- Sentinel deadline: do not block at all. -/
def kMachMessageNonblocking : Nat := 0

/-- Sentinel deadline: wait indefinitely; the maximum of the 64-bit unsigned
deadline type. -/
def kMachMessageWaitIndefinitely : Nat := 2 ^ 64 - 1

/-- Modelled from the spec: the body of MachMessageDeadlineFromTimeout sits
outside the excerpt; the header states that it computes the deadline as
timeout_ms milliseconds after the moment it executes on the monotonic
nanosecond time base, and that a timeout_ms of 0 yields
kMachMessageNonblocking. The current monotonic time is passed explicitly. -/
def MachMessageDeadlineFromTimeout (now_ns : Nat) (timeout_ms : Nat) : Nat :=
  if timeout_ms = 0 then
    kMachMessageNonblocking
  else
    (now_ns + timeout_ms * 1000000) % 2 ^ 64

/-- Mach kernel return code MACH_MSG_SUCCESS. -/
def MACH_MSG_SUCCESS : Nat := 0

/-- Mach kernel return code MACH_SEND_TIMED_OUT. -/
def MACH_SEND_TIMED_OUT : Nat := 0x10000004

/-- Mach kernel return code MACH_RCV_TIMED_OUT. -/
def MACH_RCV_TIMED_OUT : Nat := 0x10004003

/-- The option bits of a MachMessageWithDeadline call that matter to the
deadline contract: whether the call sends and whether it receives. -/
structure MachMsgOptions where
  send : Bool
  receive : Bool
deriving DecidableEq

/-- The timeout return code of a call: MACH_SEND_TIMED_OUT when the call
sends, MACH_RCV_TIMED_OUT otherwise. -/
def timedOutCode (opts : MachMsgOptions) : Nat :=
  if opts.send then MACH_SEND_TIMED_OUT else MACH_RCV_TIMED_OUT

/-- How a MachMessageWithDeadline call treats its deadline argument before
touching the kernel. -/
inductive MachMsgAction where
  | attemptNonblocking
  | returnTimedOut
  | waitWithRemaining (remaining_ns : Nat)
  | waitIndefinitely
deriving DecidableEq

/-- Modelled from the spec: the body of MachMessageWithDeadline sits outside
the excerpt; the header states its deadline handling. A deadline of
kMachMessageNonblocking is an immediate non-blocking attempt; a deadline of
kMachMessageWaitIndefinitely waits without limit; a future deadline waits for
the remaining time; an already expired deadline is treated as
kMachMessageNonblocking when run_even_if_expired is true and produces an
immediate MACH_SEND_TIMED_OUT or MACH_RCV_TIMED_OUT when it is false. -/
def machMessageAction (now : Nat) (deadline : Nat)
    (run_even_if_expired : Bool) : MachMsgAction :=
  if deadline = kMachMessageNonblocking then
    MachMsgAction.attemptNonblocking
  else if deadline = kMachMessageWaitIndefinitely then
    MachMsgAction.waitIndefinitely
  else if now < deadline then
    MachMsgAction.waitWithRemaining (deadline - now)
  else if run_even_if_expired then
    MachMsgAction.attemptNonblocking
  else
    MachMsgAction.returnTimedOut

/-- Modelled from the spec: the result of a MachMessageWithDeadline call.
The kernel mach_msg call is abstracted as the oracle attempt, mapping the
chosen action to a kernel return code; when the deadline handling decides on
an immediate timeout, the kernel is never consulted and the timed-out code
for the options of the call is returned. -/
def MachMessageWithDeadline (now : Nat) (opts : MachMsgOptions)
    (deadline : Nat) (run_even_if_expired : Bool)
    (attempt : MachMsgAction → Nat) : Nat :=
  match machMessageAction now deadline run_even_if_expired with
  | MachMsgAction.returnTimedOut => timedOutCode opts
  | a => attempt a

namespace MinidumpCrashpadInfoWriter

/-- A frozen writer with no attached child, the result of freezing a fresh
writer; used as a concrete evaluation point. -/
def wFrozenNoChild : MinidumpCrashpadInfoWriter :=
  { state := WritableState.kStateFrozen
  , crashpad_info := new.crashpad_info
  , module_list := none }

/-- A writable writer with no attached child, the promotion of
wFrozenNoChild; used as a concrete evaluation point. -/
def wWritableNoChild : MinidumpCrashpadInfoWriter :=
  { state := WritableState.kStateWritable
  , crashpad_info := new.crashpad_info
  , module_list := none }

/-- A mutable writer whose attached child list fails to freeze; used as a
concrete evaluation point. -/
def wMutableFailingChild : MinidumpCrashpadInfoWriter :=
  { state := WritableState.kStateMutable
  , crashpad_info := new.crashpad_info
  , module_list := some { freezeOk := false
                        , location := MinidumpLocationDescriptor.zero } }

/-- A mutable writer whose attached child list freezes successfully and
reports a descriptor of size 24 at offset 100; used as a concrete
evaluation point. -/
def wMutableGoodChild : MinidumpCrashpadInfoWriter :=
  { state := WritableState.kStateMutable
  , crashpad_info := new.crashpad_info
  , module_list := some { freezeOk := true
                        , location := { DataSize := 24, Rva := 100 } } }

/-- C1: on a reachable writer on which no child list was ever attached
(SetModuleList never called, or called with nullptr), a successful Freeze
leaves the module_list location descriptor of the payload at offset 0 and
size 0, Children returns the empty sequence, and the only observable freeze
step is marking the node frozen, so no bytes are ever produced for the
non-existent child. -/
theorem c1_freeze_without_child_absent_descriptor
    (w : MinidumpCrashpadInfoWriter) (h : Reach w)
    (hm : w.state = WritableState.kStateMutable)
    (hn : w.module_list = none) :
    ∃ w', Freeze w = some (true, w', [FreezeEvent.selfMarkedFrozen]) ∧
      w'.crashpad_info.module_list = MinidumpLocationDescriptor.zero ∧
      Children w' = some [] := by
  refine ⟨{ w with state := WritableState.kStateFrozen }, ?_, ?_, ?_⟩
  · unfold Freeze
    simp [hm, hn]
  · show w.crashpad_info.module_list = MinidumpLocationDescriptor.zero
    rw [reach_mutable_crashpad_info h hm]
    rfl
  · unfold Children
    simp [hn, WritableState.rank]

/-- C1 witness: the theorem evaluated on a freshly constructed writer. -/
theorem c1_witness :
    ∃ w', Freeze new = some (true, w', [FreezeEvent.selfMarkedFrozen]) ∧
      w'.crashpad_info.module_list = MinidumpLocationDescriptor.zero ∧
      Children w' = some [] :=
  c1_freeze_without_child_absent_descriptor new Reach.construct rfl rfl

/-- C2: whenever WriteObject succeeds, the byte count handed to the single
Write call of the sink, and hence the number of bytes appended there, equals
the value SizeOfObject returns. -/
theorem c2_writeObject_size_consistency
    (w : MinidumpCrashpadInfoWriter) (fw fw' : FileWriterInterface)
    (h : WriteObject w fw = some (true, fw')) :
    SizeOfObject w = some MinidumpCrashpadInfo.sizeofStruct ∧
    fw'.data = fw.data ++ w.crashpad_info.toBytes ∧
    w.crashpad_info.toBytes.length = MinidumpCrashpadInfo.sizeofStruct := by
  unfold WriteObject at h
  by_cases hs : w.state = WritableState.kStateWritable
  · simp only [hs, if_true, Option.some.injEq] at h
    unfold FileWriterInterface.WriteCall at h
    by_cases hok : fw.ok
    · simp only [hok, if_true, Prod.mk.injEq] at h
      refine ⟨?_, ?_, MinidumpCrashpadInfo.toBytes_length _⟩
      · unfold SizeOfObject
        simp [hs, WritableState.rank]
      · rw [← h.2]
    · simp [hok] at h
  · simp [hs] at h

/-- C2 witness: the theorem evaluated on a writable writer and a working
sink starting empty. -/
theorem c2_witness :
    SizeOfObject wWritableNoChild = some MinidumpCrashpadInfo.sizeofStruct ∧
    (FileWriterInterface.mk [1, 0, 0, 0, 0, 0, 0, 0, 0, 0, 0, 0] true).data =
      (FileWriterInterface.mk [] true).data ++
        wWritableNoChild.crashpad_info.toBytes ∧
    wWritableNoChild.crashpad_info.toBytes.length =
      MinidumpCrashpadInfo.sizeofStruct :=
  c2_writeObject_size_consistency wWritableNoChild
    (FileWriterInterface.mk [] true)
    (FileWriterInterface.mk [1, 0, 0, 0, 0, 0, 0, 0, 0, 0, 0, 0] true)
    (by decide)

/-- C3: freezing a writer with an attached child list whose own freeze
succeeds performs, in this order: freeze the child list, register the
location descriptor of the child into the payload field, mark the node
frozen; the resulting writer is Frozen and carries the descriptor of the
child. -/
theorem c3_freeze_order_with_child
    (w : MinidumpCrashpadInfoWriter)
    (ml : MinidumpModuleCrashpadInfoListWriter)
    (hm : w.state = WritableState.kStateMutable)
    (hml : w.module_list = some ml)
    (hok : ml.freezeOk = true) :
    ∃ w', Freeze w = some (true, w',
        [FreezeEvent.childListFrozen, FreezeEvent.descriptorRegistered,
         FreezeEvent.selfMarkedFrozen]) ∧
      w'.state = WritableState.kStateFrozen ∧
      w'.crashpad_info.module_list = ml.location := by
  refine ⟨{ w with
      state := WritableState.kStateFrozen
      crashpad_info := { w.crashpad_info with module_list := ml.location } },
    ?_, rfl, rfl⟩
  unfold Freeze
  simp [hm, hml, hok]

/-- C3 witness: the theorem evaluated on a mutable writer carrying a child
list that freezes to a descriptor of size 24 at offset 100. -/
theorem c3_witness :
    ∃ w', Freeze wMutableGoodChild = some (true, w',
        [FreezeEvent.childListFrozen, FreezeEvent.descriptorRegistered,
         FreezeEvent.selfMarkedFrozen]) ∧
      w'.state = WritableState.kStateFrozen ∧
      w'.crashpad_info.module_list =
        MinidumpModuleCrashpadInfoListWriter.location
          { freezeOk := true, location := { DataSize := 24, Rva := 100 } } :=
  c3_freeze_order_with_child wMutableGoodChild
    { freezeOk := true, location := { DataSize := 24, Rva := 100 } }
    rfl rfl rfl

/-- C4: once the lifecycle state is at least Frozen, SizeOfObject returns
the size of the fixed payload struct alone, and attaching or removing a
child list leaves the value unchanged. -/
theorem c4_sizeOfObject_excludes_child
    (w : MinidumpCrashpadInfoWriter)
    (h : WritableState.kStateFrozen.rank ≤ w.state.rank) :
    SizeOfObject w = some MinidumpCrashpadInfo.sizeofStruct ∧
    ∀ ml, SizeOfObject { w with module_list := ml } =
      some MinidumpCrashpadInfo.sizeofStruct := by
  constructor
  · unfold SizeOfObject
    simp [h]
  · intro ml
    unfold SizeOfObject
    simp [h]

/-- C4 witness: the theorem evaluated on a frozen writer with no child. -/
theorem c4_witness :
    SizeOfObject wFrozenNoChild = some MinidumpCrashpadInfo.sizeofStruct :=
  (c4_sizeOfObject_excludes_child wFrozenNoChild (by decide)).1

/-- C5: every operation checks the lifecycle state on entry and faults on an
out-of-order call: SetModuleList and Freeze go through exactly in state
Mutable, SizeOfObject and Children exactly in a state at least Frozen, and
WriteObject exactly in state Writable. -/
theorem c5_operations_check_state
    (w : MinidumpCrashpadInfoWriter)
    (ml : Option MinidumpModuleCrashpadInfoListWriter)
    (fw : FileWriterInterface) :
    (SetModuleList w ml ≠ none ↔ w.state = WritableState.kStateMutable) ∧
    (Freeze w ≠ none ↔ w.state = WritableState.kStateMutable) ∧
    (SizeOfObject w ≠ none ↔
      WritableState.kStateFrozen.rank ≤ w.state.rank) ∧
    (Children w ≠ none ↔
      WritableState.kStateFrozen.rank ≤ w.state.rank) ∧
    (WriteObject w fw ≠ none ↔ w.state = WritableState.kStateWritable) := by
  refine ⟨?_, ?_, ?_, ?_, ?_⟩
  · unfold SetModuleList
    by_cases hm : w.state = WritableState.kStateMutable <;> simp [hm]
  · unfold Freeze
    by_cases hm : w.state = WritableState.kStateMutable
    · simp only [hm, if_true]
      cases hml : w.module_list with
      | none => simp [hm]
      | some c =>
          by_cases hok : c.freezeOk <;> simp [hok, hm]
    · simp [hm]
  · unfold SizeOfObject
    by_cases hf : WritableState.kStateFrozen.rank ≤ w.state.rank <;> simp [hf]
  · unfold Children
    by_cases hf : WritableState.kStateFrozen.rank ≤ w.state.rank <;> simp [hf]
  · unfold WriteObject
    by_cases hw : w.state = WritableState.kStateWritable <;> simp [hw]

/-- C6: when the base-class freeze fails, which happens exactly when the
freeze of the attached child list fails, Freeze returns false with the
writer untouched, so no descriptor is registered into the payload; and
Freeze returns true only when the base freeze succeeded. -/
theorem c6_freeze_propagates_base_failure
    (w : MinidumpCrashpadInfoWriter)
    (hm : w.state = WritableState.kStateMutable) :
    (∀ ml, w.module_list = some ml → ml.freezeOk = false →
        Freeze w = some (false, w, [FreezeEvent.childListFrozen])) ∧
    (∀ b w' tr, Freeze w = some (b, w', tr) → b = true →
        ∀ ml, w.module_list = some ml → ml.freezeOk = true) := by
  constructor
  · intro ml hml hfail
    unfold Freeze
    simp [hm, hml, hfail]
  · intro b w' tr hfz hb ml hml
    subst hb
    by_cases hok : ml.freezeOk
    · exact hok
    · unfold Freeze at hfz
      simp [hm, hml, hok] at hfz

/-- C6 witness: the theorem evaluated on a mutable writer whose child list
fails to freeze. -/
theorem c6_witness :
    Freeze wMutableFailingChild = some (false, wMutableFailingChild,
      [FreezeEvent.childListFrozen]) :=
  (c6_freeze_propagates_base_failure wMutableFailingChild rfl).1
    { freezeOk := false, location := MinidumpLocationDescriptor.zero }
    rfl rfl

/-- C7: WriteObject performs a single Write call on the sink and returns
exactly the result of that call: it reports failure precisely when the sink
does, and on a sink failure nothing is appended. -/
theorem c7_writeObject_propagates_sink_result
    (w : MinidumpCrashpadInfoWriter) (fw : FileWriterInterface)
    (h : w.state = WritableState.kStateWritable) :
    WriteObject w fw = some (fw.WriteCall w.crashpad_info.toBytes) ∧
    (fw.WriteCall w.crashpad_info.toBytes).1 = fw.ok ∧
    (fw.ok = false → (fw.WriteCall w.crashpad_info.toBytes).2 = fw) := by
  refine ⟨?_, ?_, ?_⟩
  · unfold WriteObject
    simp [h]
  · unfold FileWriterInterface.WriteCall
    by_cases hok : fw.ok <;> simp [hok]
  · intro hfail
    unfold FileWriterInterface.WriteCall
    simp [hfail]

/-- C7 witness: the theorem evaluated on a writable writer and a failing
sink. -/
theorem c7_witness :
    WriteObject wWritableNoChild (FileWriterInterface.mk [] false) =
      some ((FileWriterInterface.mk [] false).WriteCall
        wWritableNoChild.crashpad_info.toBytes) ∧
    ((FileWriterInterface.mk [] false).WriteCall
        wWritableNoChild.crashpad_info.toBytes).1 =
      (FileWriterInterface.mk [] false).ok ∧
    ((FileWriterInterface.mk [] false).ok = false →
      ((FileWriterInterface.mk [] false).WriteCall
          wWritableNoChild.crashpad_info.toBytes).2 =
        FileWriterInterface.mk [] false) :=
  c7_writeObject_propagates_sink_result wWritableNoChild
    (FileWriterInterface.mk [] false) rfl

end MinidumpCrashpadInfoWriter

/-- C8: the two sentinel deadline values are distinct: kMachMessageNonblocking
is 0, kMachMessageWaitIndefinitely is the maximum value of the 64-bit
unsigned deadline type, and MachMessageDeadlineFromTimeout maps a timeout of
0 milliseconds to kMachMessageNonblocking at every current time. -/
theorem c8_sentinel_deadlines (now_ns : Nat) :
    kMachMessageNonblocking = 0 ∧
    kMachMessageWaitIndefinitely = 2 ^ 64 - 1 ∧
    kMachMessageNonblocking ≠ kMachMessageWaitIndefinitely ∧
    MachMessageDeadlineFromTimeout now_ns 0 = kMachMessageNonblocking := by
  refine ⟨rfl, rfl, by decide, ?_⟩
  unfold MachMessageDeadlineFromTimeout
  simp

/-- C9: with an already expired deadline that is not one of the sentinels,
the run_even_if_expired flag selects the behavior of MachMessageWithDeadline:
true performs the call as an immediate non-blocking attempt, exactly as a
deadline of kMachMessageNonblocking would; false returns the immediate
timed-out code of the call, MACH_SEND_TIMED_OUT or MACH_RCV_TIMED_OUT,
without consulting the kernel oracle. -/
theorem c9_expired_deadline_selectable
    (now deadline : Nat) (opts : MachMsgOptions)
    (attempt : MachMsgAction → Nat)
    (h0 : deadline ≠ kMachMessageNonblocking)
    (hInf : deadline ≠ kMachMessageWaitIndefinitely)
    (hexp : deadline ≤ now) :
    MachMessageWithDeadline now opts deadline true attempt =
      MachMessageWithDeadline now opts kMachMessageNonblocking true attempt ∧
    MachMessageWithDeadline now opts deadline true attempt =
      attempt MachMsgAction.attemptNonblocking ∧
    MachMessageWithDeadline now opts deadline false attempt =
      timedOutCode opts ∧
    (timedOutCode opts = MACH_SEND_TIMED_OUT ∨
      timedOutCode opts = MACH_RCV_TIMED_OUT) := by
  have hlt : ¬ now < deadline := by omega
  have h0' : ¬ deadline = 0 := h0
  have hI' : ¬ deadline = 2 ^ 64 - 1 := hInf
  have hI2 : ¬ deadline = 18446744073709551615 := by
    intro hc
    exact hI' (hc.trans (by decide))
  refine ⟨?_, ?_, ?_, ?_⟩
  · unfold MachMessageWithDeadline machMessageAction kMachMessageNonblocking
      kMachMessageWaitIndefinitely
    simp [h0', hI2, hlt]
  · unfold MachMessageWithDeadline machMessageAction kMachMessageNonblocking
      kMachMessageWaitIndefinitely
    simp [h0', hI2, hlt]
  · unfold MachMessageWithDeadline machMessageAction kMachMessageNonblocking
      kMachMessageWaitIndefinitely
    simp [h0', hI2, hlt]
  · unfold timedOutCode
    by_cases hs : opts.send = true <;> simp [hs]

/-- C9 witness: the theorem evaluated at current time 10 with the expired
deadline 5, a send call, and an oracle answering success. -/
theorem c9_witness :
    MachMessageWithDeadline 10 (MachMsgOptions.mk true false) 5 true
        (fun _ => MACH_MSG_SUCCESS) =
      MachMessageWithDeadline 10 (MachMsgOptions.mk true false)
        kMachMessageNonblocking true (fun _ => MACH_MSG_SUCCESS) ∧
    MachMessageWithDeadline 10 (MachMsgOptions.mk true false) 5 true
        (fun _ => MACH_MSG_SUCCESS) =
      (fun _ : MachMsgAction => MACH_MSG_SUCCESS)
        MachMsgAction.attemptNonblocking ∧
    MachMessageWithDeadline 10 (MachMsgOptions.mk true false) 5 false
        (fun _ => MACH_MSG_SUCCESS) =
      timedOutCode (MachMsgOptions.mk true false) ∧
    (timedOutCode (MachMsgOptions.mk true false) = MACH_SEND_TIMED_OUT ∨
      timedOutCode (MachMsgOptions.mk true false) = MACH_RCV_TIMED_OUT) :=
  c9_expired_deadline_selectable 10 5 (MachMsgOptions.mk true false)
    (fun _ => MACH_MSG_SUCCESS) (by decide) (by decide) (by decide)

namespace MinidumpCrashpadInfoWriter

/-- C10: immediately after construction the payload carries version kVersion
with every other field zero; no operation writes to the version field, so on
every reachable writer a successful WriteObject appends a payload whose
first four bytes encode kVersion. -/
theorem c10_version_invariant
    (w : MinidumpCrashpadInfoWriter) (h : Reach w) :
    (new.crashpad_info.version = MinidumpCrashpadInfo.kVersion ∧
     new.crashpad_info.module_list = MinidumpLocationDescriptor.zero) ∧
    w.crashpad_info.version = MinidumpCrashpadInfo.kVersion ∧
    ∀ fw b fw', WriteObject w fw = some (b, fw') → b = true →
      fw'.data = fw.data ++ w.crashpad_info.toBytes ∧
      w.crashpad_info.toBytes.take 4 = u32le MinidumpCrashpadInfo.kVersion := by
  refine ⟨⟨rfl, rfl⟩, reach_version h, ?_⟩
  intro fw b fw' hw hb
  subst hb
  unfold WriteObject at hw
  by_cases hs : w.state = WritableState.kStateWritable
  · simp only [hs, if_true, Option.some.injEq] at hw
    unfold FileWriterInterface.WriteCall at hw
    by_cases hok : fw.ok
    · simp only [hok, if_true, Prod.mk.injEq] at hw
      refine ⟨by rw [← hw.2], ?_⟩
      unfold MinidumpCrashpadInfo.toBytes
      rw [reach_version h]
      simp [u32le, MinidumpCrashpadInfo.kVersion, List.take]
    · simp [hok] at hw
  · simp [hs] at hw

/-- C10 witness: the theorem evaluated on a writer reached by construct,
freeze and promote, written to a working sink starting empty. -/
theorem c10_witness :
    wWritableNoChild.crashpad_info.toBytes.take 4 =
      u32le MinidumpCrashpadInfo.kVersion :=
  ((c10_version_invariant wWritableNoChild
      (Reach.promote (Reach.freeze Reach.construct rfl) rfl)).2.2
    (FileWriterInterface.mk [] true) true
    (FileWriterInterface.mk wWritableNoChild.crashpad_info.toBytes true)
    (by decide) rfl).2

end MinidumpCrashpadInfoWriter

end Crashpad
